import Mathlib

/-
Shallow embedding of `src/nb_classifier.py` (class `NBClassifier` and the
`nb_demo` driver), a pure-Python naive Bayes classifier over mixed
categorical and continuous features.

Modelling conventions
  * Python exceptions are modelled with `Except PyErr`; fallible steps are
    sequenced by explicit matches that propagate the first raised error,
    exactly as exception propagation does.
  * Python/numpy floats are modelled by `ℚ` (exact arithmetic); all float
    computations reached by the claims are field operations on rationals.
    numpy produces NaN rather than raising on a 0/0 (sample variance of a
    single-row class subset); the Lean convention `x / 0 = 0` stands in for
    that NaN, and no claim observes such a value.
  * CPython set iteration order (`list(set(y))`, line 87) and the sorted
    order of `np.unique` are not semantically guaranteed / not observable
    here: every consumer that completes only reads membership, length,
    counts, or performs keyed dictionary lookups, and the one order-sensitive
    consumer (the argmax tie-break in `predict`) raises before reading it.
    Both are therefore modelled with `List.dedup` (order of last
    occurrences), with the order never entering any statement below.
  * Python dictionaries are association lists with unique keys; insertion
    order is preserved by construction and lookups are keyed.
-/

/-- Python exception kinds raised by the code paths of `nb_classifier.py`.
The spec's abstract error names map onto them as follows:
`ShapeMismatch` is the `AssertionError` (no message) of the two shape asserts
in `fit` (lines 81, 84); `InvalidIndex` is the `AssertionError` carrying the
message of the two index asserts in `feature_class_prob` (lines 137, 141);
`ModelNotFit` is the `AttributeError` raised when `predict` or
`feature_class_prob` touches `self.X_categorical` before any `fit` call has
set it.  `typeError` models `TypeError` (for example calling `np.power` with
a single argument), `valueError` models `ValueError` (for example
`astype(float)` on a non-numeric string), `keyError` a dictionary-lookup
miss, and `indexError` an out-of-range list index. -/
inductive PyErr where
  | assertionError (msg : String)
  | attributeError
  | keyError
  | indexError
  | typeError
  | valueError
deriving DecidableEq

/-- A cell of the data matrix.  numpy stores the heterogeneous demo matrix
with a string dtype; a cell whose text `astype(float)` parses successfully
is modelled directly by its numeric reading (`num`), and `str` models the
cells whose text is not a number, for which `astype(float)` raises
`ValueError`.  Categorical processing only ever compares cells of one column
for equality, which this encoding preserves. -/
inductive Cell where
  | str (s : String)
  | num (q : ℚ)
deriving DecidableEq

/-- A rectangular numpy matrix: a list of rows together with its column
count `ncols` (`shape[1]`); numpy arrays are rectangular, recorded by
`rect`. -/
structure PyMatrix where
  rows : List (List Cell)
  ncols : ℕ
  rect : ∀ r ∈ rows, r.length = ncols

/-- Python list / 1-d numpy indexing with an integer index: a negative index
`i` counts from the end (element `len + i`); an index that is still out of
range after that adjustment raises `IndexError`. -/
def pyIndex {α : Type} (l : List α) (i : ℤ) : Except PyErr α :=
  let j : ℤ := if i < 0 then i + l.length else i
  if 0 ≤ j then
    match l[j.toNat]? with
    | some a => .ok a
    | none => .error .indexError
  else .error .indexError

/-- Indexing with a nonnegative index known to be a `ℕ` (the loop counters of
`fit` iterate over `range`), raising `IndexError` out of range. -/
def npIndexNat {α : Type} (l : List α) (i : ℕ) : Except PyErr α :=
  match l[i]? with
  | some a => .ok a
  | none => .error .indexError

/-- Python dictionary subscript `d[k]`: `KeyError` when the key is absent. -/
def dictGet {α : Type} (d : List (ℤ × α)) (k : ℤ) : Except PyErr α :=
  match d.lookup k with
  | some v => .ok v
  | none => .error .keyError

/-- Python `d.get(k, dflt)`: the stored value, or the default on a miss. -/
def dictGetDefault (d : List (Cell × ℚ)) (k : Cell) (dflt : ℚ) : ℚ :=
  (d.lookup k).getD dflt

/-- Sequencing of a fallible per-element computation over a list, stopping at
the first raised exception (the behaviour of a Python loop body or of a
vectorised numpy operation such as `astype`). -/
def mapE {α β : Type} (f : α → Except PyErr β) : List α → Except PyErr (List β)
  | [] => .ok []
  | a :: l =>
    match f a with
    | .error e => .error e
    | .ok b =>
      match mapE f l with
      | .error e => .error e
      | .ok bs => .ok (b :: bs)

/-- Lines 87, 91 and 107: both `list(set(y))` and `np.unique` produce the
distinct elements of a list; their iteration order (unspecified for `set`,
ascending for `np.unique`) is modelled by `List.dedup` since, as noted at the
top of the file, no completing code path observes the order. -/
def pyDistinct {α : Type} [DecidableEq α] (l : List α) : List α :=
  l.dedup

/-- Lines 91 to 94: `np.unique(y, return_counts=True)` zipped into a dict and
divided by the number of rows: the priors dictionary maps each distinct label
to its count divided by the total row count. -/
def priorsOf (y : List ℤ) : List (ℤ × ℚ) :=
  (pyDistinct y).map fun label => (label, (y.count label : ℚ) / (y.length : ℚ))

/-- Column `i` of the matrix, `X[:, i]`. -/
def colCells (rows : List (List Cell)) (i : ℕ) : List Cell :=
  rows.filterMap fun r => r[i]?

/-- Line 99: `X[y == label, feature]` — the entries of column `i` restricted
to the rows whose training label equals `label`. -/
def classColumn (rows : List (List Cell)) (y : List ℤ) (label : ℤ) (i : ℕ) :
    List Cell :=
  ((rows.zip y).filter fun p => p.2 == label).filterMap fun p => p.1[i]?

/-- Lines 106 to 114: the per-class categorical dictionary.  For every
distinct category of the full column, the conditional probability
`(count within the class subset + smoothing) /
 (class subset size + smoothing * number of distinct categories)` is
computed, and only the entries whose probability is not exactly 0 are
inserted (line 111). -/
def catTable (col : List Cell) (subset : List Cell) (s : ℕ) :
    List (Cell × ℚ) :=
  (pyDistinct col).filterMap fun category =>
    let p : ℚ := ((subset.count category : ℚ) + (s : ℚ)) /
      ((subset.length : ℚ) + (s : ℚ) * ((pyDistinct col).length : ℚ))
    if p ≠ 0 then some (category, p) else none

/-- Line 102: `np.mean` of a float vector. -/
def npMean (l : List ℚ) : ℚ := l.sum / (l.length : ℚ)

/-- Lines 103 and 104: `np.var(l, ddof=1)`, the sample variance
`Σ (x - mean)² / (n - 1)`; `np.std(l, ddof=1)` is its square root. -/
def npVar1 (l : List ℚ) : ℚ :=
  (l.map fun x => (x - npMean l) ^ 2).sum / ((l.length : ℚ) - 1)

/-- Payload stored in `feature_dists` for one feature and one class
(lines 102 to 114): either the Gaussian parameters of a continuous feature
or the categorical probability dictionary.  The source stores the continuous
payload as the triple `(mean, std, var)` with `std = np.std(…, ddof=1)`,
the square root of `var`; the numeric value of the `std` component is
consumed by no completing code path — `predict` raises before its inner
loop touches any payload, and the density expression of
`feature_class_prob` raises `TypeError` at `np.power(st_dev ** 2)` before
the factors involving `st_dev` are used — so the embedding records the
`(mean, var)` components, and models the discarded `st_dev ** 2` by
`var`. -/
inductive FeatureDistEntry where
  | gauss (mean var : ℚ)
  | cat (table : List (Cell × ℚ))
deriving DecidableEq

/-- Line 101: `has_label.astype(float)` on a single cell: the numeric
reading, or `ValueError` for a non-numeric string. -/
def cellAstype : Cell → Except PyErr ℚ
  | .num q => .ok q
  | .str _ => .error .valueError

/-- Lines 98 to 114, body of the per-feature loop for one class label:
select the class subset of the column, then either estimate the Gaussian
parameters (continuous) or build the categorical dictionary.  The dictionary
entry is keyed by the class label. -/
def buildEntry (s : ℕ) (X : PyMatrix) (kinds : List Bool) (y : List ℤ)
    (i : ℕ) (label : ℤ) : Except PyErr (ℤ × FeatureDistEntry) :=
  let has_label := classColumn X.rows y label i
  match npIndexNat kinds i with
  | .error e => .error e
  | .ok kind =>
    if kind then
      .ok (label, .cat (catTable (colCells X.rows i) has_label s))
    else
      match mapE cellAstype has_label with
      | .error e => .error e
      | .ok fl => .ok (label, .gauss (npMean fl) (npVar1 fl))

/-- Lines 97 to 114: the dictionary for feature `i`, one entry per class in
`self.classes`. -/
def buildFeature (s : ℕ) (X : PyMatrix) (kinds : List Bool) (y : List ℤ)
    (i : ℕ) : Except PyErr (List (ℤ × FeatureDistEntry)) :=
  mapE (buildEntry s X kinds y i) (pyDistinct y)

/-- Lines 96 to 115: `for feature in range(X.shape[1])`, appending one
per-feature dictionary each iteration. -/
def buildDists (s : ℕ) (X : PyMatrix) (kinds : List Bool) (y : List ℤ) :
    Except PyErr (List (List (ℤ × FeatureDistEntry))) :=
  mapE (buildFeature s X kinds y) (List.range X.ncols)

/-- The model state set by a successful `fit` call (lines 86 to 115):
`self.X_categorical`, `self.classes`, `self.priors`, `self.feature_dists`,
together with `self.smoothing` fixed at construction. -/
structure FittedModel where
  smoothing : ℕ
  x_categorical : List Bool
  classes : List ℤ
  priors : List (ℤ × ℚ)
  feature_dists : List (List (ℤ × FeatureDistEntry))

/-- Lines 80 to 115, `NBClassifier.fit`: the two shape asserts (`assert
X.shape[1] == X_categorical.shape[0]`, `assert X.shape[0] == y.shape[0]`,
raising `AssertionError` with no message) run before any attribute is
assigned, then the class set, priors, and per-feature distributions are
computed and stored. -/
def fitModel (s : ℕ) (X : PyMatrix) (kinds : List Bool) (y : List ℤ) :
    Except PyErr FittedModel :=
  if X.ncols = kinds.length then
    if X.rows.length = y.length then
      match buildDists s X kinds y with
      | .error e => .error e
      | .ok dists =>
        .ok { smoothing := s, x_categorical := kinds, classes := pyDistinct y,
              priors := priorsOf y, feature_dists := dists }
    else .error (.assertionError "")
  else .error (.assertionError "")

/-- Calling `np.power` with a single argument: numpy's `power` requires two
positional array arguments, so the call `np.power(st_dev ** 2)` on line 151
raises `TypeError` for every input and never returns a value (result type
`Empty`). -/
def npPowerOneArg (_e : ℚ) : Except PyErr Empty := .error .typeError

/-- Lines 149 to 154, the continuous branch of `feature_class_prob` after
the payload has been fetched.  The source evaluates, left to right,
`(1 / (st_dev * np.sqrt(2 * np.pi))) *
 np.exp(-(np.power(x.astype(float) - mean, 2)) / (2 * np.power(st_dev ** 2)))`.
The leading coefficient is a pure float computation that cannot raise; then
`x.astype(float)` raises `ValueError` on a non-numeric cell; then
`np.power(st_dev ** 2)` passes a single argument to `np.power` and raises
`TypeError`.  The raise happens before `np.exp`, the enclosing product, the
zero test of line 152, and the `1e-9` floor of line 153, so the branch never
produces a value; the unreachable continuation is discharged by the `Empty`
result of `npPowerOneArg`. -/
def gaussTail (mean var : ℚ) (x : Cell) : Except PyErr ℚ :=
  match cellAstype x with
  | .error e => .error e
  | .ok xf =>
    let _numer : ℚ := (xf - mean) ^ 2
    match npPowerOneArg var with
    | .error e => .error e
    | .ok em => nomatch em

/-- Lines 120 to 154, `NBClassifier.feature_class_prob` on a fitted model:
the feature-index assert checks only the upper bound `feature_index <
self.X_categorical.shape[0]` (line 137) and the class assert only
`class_label < len(self.classes)` (line 141), each raising `AssertionError`
with its message; then `self.feature_dists[feature_index]` and
`self.X_categorical[feature_index]` are read with Python integer indexing
(negative indices count from the end).  A categorical feature answers
`feature_dist[class_label].get(x, 0)` — a `dict` subscript (`KeyError` when
`class_label` is not a stored label) followed by a defaulting `get`; a
continuous feature unpacks the `(mean, std, var)` tuple and enters the
density expression, which always raises (see `gaussTail`).  The two
type-confused cases (a Gaussian tuple where a dictionary is expected and
vice versa) are unreachable for models produced by `fit`, where the payload
variant follows the feature kind; in Python they also raise
(`AttributeError`: a tuple has no `get`; unpacking a dictionary either
raises `ValueError` on a size mismatch or binds keys whose every
continuation raises in the density expression), modelled by
`attributeError` and `typeError` respectively. -/
def FittedModel.feature_class_prob (m : FittedModel)
    (feature_index class_label : ℤ) (x : Cell) : Except PyErr ℚ :=
  if feature_index < (m.x_categorical.length : ℤ) then
    if class_label < (m.classes.length : ℤ) then
      match pyIndex m.feature_dists feature_index with
      | .error e => .error e
      | .ok feature_dist =>
        match pyIndex m.x_categorical feature_index with
        | .error e => .error e
        | .ok kind =>
          if kind then
            match dictGet feature_dist class_label with
            | .error e => .error e
            | .ok (.cat table) => .ok (dictGetDefault table x 0)
            | .ok (.gauss _ _) => .error .attributeError
          else
            match dictGet feature_dist class_label with
            | .error e => .error e
            | .ok (.gauss mean var) => gaussTail mean var x
            | .ok (.cat _) => .error .typeError
    else .error (.assertionError
      "invalid class label passed to feature_class_prob")
  else .error (.assertionError
    "Invalid feature index passed to feature_class_prob")

/-- Accessing the `shape` attribute of a Python `list`: `self.classes` is
built by `list(set(y))` on line 87 and is a plain Python list, which has no
`shape` attribute, so `self.classes.shape[0]` on line 174 raises
`AttributeError` and never returns a value. -/
def pyListShape (_l : List ℤ) : Except PyErr Empty := .error .attributeError

/-- Lines 156 to 185, `NBClassifier.predict` on a fitted model: after the
column-count assert, `probabilities = np.empty(X.shape[0])` and the loop
`for attribute in range(X.shape[0])`.  With no rows the loop body never runs
and the empty float array is returned; with at least one row the first
iteration evaluates `np.zeros(self.classes.shape[0])` and raises
`AttributeError` (see `pyListShape`), so the log-score accumulation of the
loop body (lines 175 to 183) is unreachable and the unreachable continuation
is discharged by the `Empty` result. -/
def FittedModel.predict (m : FittedModel) (X : PyMatrix) :
    Except PyErr (List ℚ) :=
  if X.ncols = m.x_categorical.length then
    match X.rows with
    | [] => .ok []
    | _ :: _ =>
      match pyListShape m.classes with
      | .error e => .error e
      | .ok em => nomatch em
  else .error (.assertionError "")

/-- The engine object: `self.smoothing` is fixed by `__init__` (lines 26 to
35), and `fitted` collects the attributes assigned by `fit` — `none` models
the Unfit state, in which those attributes do not exist on the instance and
reading them raises `AttributeError`. -/
structure NBClassifier where
  smoothing : ℕ
  fitted : Option FittedModel

/-- Lines 26 to 47, `NBClassifier.__init__`: smoothing 1 when the flag is
set, else 0; no fitted state. -/
def NBClassifier.new (smoothing_flag : Bool) : NBClassifier :=
  { smoothing := if smoothing_flag then 1 else 0, fitted := none }

/-- Method `fit` on the engine: on success the fitted attributes replace the
previous state; the shape asserts raise before any attribute is assigned, so
on failure the engine state is unchanged (no result is produced). -/
def NBClassifier.fit (c : NBClassifier) (X : PyMatrix) (kinds : List Bool)
    (y : List ℤ) : Except PyErr NBClassifier :=
  match fitModel c.smoothing X kinds y with
  | .error e => .error e
  | .ok m => .ok { c with fitted := some m }

/-- Method `predict` on the engine: an unfitted engine raises
`AttributeError` at `self.X_categorical.shape[0]` on line 169 (the spec's
`ModelNotFit`). -/
def NBClassifier.predict (c : NBClassifier) (X : PyMatrix) :
    Except PyErr (List ℚ) :=
  match c.fitted with
  | some m => m.predict X
  | none => .error .attributeError

/-- Method `feature_class_prob` on the engine: an unfitted engine raises
`AttributeError` at `self.X_categorical.shape[0]` on line 137 (the spec's
`ModelNotFit`). -/
def NBClassifier.feature_class_prob (c : NBClassifier)
    (feature_index class_label : ℤ) (x : Cell) : Except PyErr ℚ :=
  match c.fitted with
  | some m => m.feature_class_prob feature_index class_label x
  | none => .error .attributeError

/-- The conditional probability stored by `fit` for categorical feature `i`,
class `c`, and category `v`: the keyed lookup through
`self.feature_dists[i][c]`, `none` when no entry is stored. -/
def storedCatProb (m : FittedModel) (i : ℕ) (c : ℤ) (v : Cell) : Option ℚ :=
  m.feature_dists[i]?.bind fun d =>
    (d.lookup c).bind fun pay =>
      match pay with
      | .cat table => table.lookup v
      | .gauss _ _ => none

/-- Fixture: a 1-row, 1-column categorical training matrix. -/
def X2 : PyMatrix := ⟨[[Cell.str "a"]], 1, by decide⟩

/-- Fixture: the model stored by fitting `X2` with labels `[0]`, written with
the same stored thunks that `fitModel` produces. -/
def m2 : FittedModel :=
  { smoothing := 0, x_categorical := [true], classes := pyDistinct [0],
    priors := priorsOf [0],
    feature_dists :=
      [[(0, FeatureDistEntry.cat
          (catTable (colCells X2.rows 0) (classColumn X2.rows [0] 0 0) 0))]] }

/-- Fixture: a 2-row, 1-column continuous training matrix. -/
def X3 : PyMatrix := ⟨[[Cell.num 1], [Cell.num 3]], 1, by decide⟩

/-- Fixture: the model stored by fitting `X3` with labels `[0, 0]`. -/
def m3 : FittedModel :=
  { smoothing := 0, x_categorical := [false], classes := pyDistinct [0, 0],
    priors := priorsOf [0, 0],
    feature_dists :=
      [[(0, FeatureDistEntry.gauss (npMean [(1 : ℚ), 3])
          (npVar1 [(1 : ℚ), 3]))]] }

/-- Fixture: a small fitted model with one categorical feature and one
class. -/
def mA : FittedModel :=
  { smoothing := 0, x_categorical := [true], classes := [0],
    priors := [(0, 1)],
    feature_dists := [[(0, FeatureDistEntry.cat [(Cell.str "a", 1)])]] }

/-- Fixture: a 1-row test matrix matching `mA`. -/
def XA : PyMatrix := ⟨[[Cell.str "a"]], 1, by decide⟩

/-- Fixture: a zero-row training matrix with one categorical column
(`np.empty((0, 1))`). -/
def X0 : PyMatrix := ⟨[], 1, by simp⟩

/-- Fixture: the model stored by fitting `X0` with the empty label vector:
the class set and the priors dictionary are empty, and the single feature's
dictionary has no entries. -/
def m0 : FittedModel :=
  { smoothing := 0, x_categorical := [true],
    classes := pyDistinct ([] : List ℤ),
    priors := priorsOf [], feature_dists := [[]] }

/-- Lines 191 to 200 of `nb_demo`: the loan-default table of the textbook,
10 rows, two categorical features (home owner, marital status) and one
continuous feature (income). -/
def demoX : PyMatrix :=
  ⟨[[.str "Yes", .str "Single", .num 125],
    [.str "No", .str "Married", .num 100],
    [.str "No", .str "Single", .num 70],
    [.str "Yes", .str "Married", .num 120],
    [.str "No", .str "Divorced", .num 95],
    [.str "No", .str "Married", .num 60],
    [.str "Yes", .str "Divorced", .num 220],
    [.str "No", .str "Single", .num 85],
    [.str "No", .str "Married", .num 75],
    [.str "No", .str "Single", .num 90]], 3, by decide⟩

/-- Line 203: the first two features are categorical, the third
continuous. -/
def demoKinds : List Bool := [true, true, false]

/-- Line 206: the class labels (default borrower). -/
def demoY : List ℤ := [0, 0, 0, 0, 1, 0, 0, 1, 0, 1]

/-- Line 212: the single test row `['No', 'Married', 120]`. -/
def demoTest : PyMatrix :=
  ⟨[[.str "No", .str "Married", .num 120]], 3, by decide⟩

/-- Lines 188 to 217, `nb_demo`: construct the engine without smoothing,
fit it on the loan table, and predict the test row. -/
def nbDemo : Except PyErr (List ℚ) :=
  match (NBClassifier.new false).fit demoX demoKinds demoY with
  | .error e => .error e
  | .ok nb2 => nb2.predict demoTest

/-- Inversion of `mapE`: a successful run determines the output pointwise. -/
theorem mapE_ok_get {α β : Type} {f : α → Except PyErr β} {l : List α}
    {out : List β} (h : mapE f l = .ok out) {i : ℕ} {a : α}
    (ha : l[i]? = some a) : ∃ b, out[i]? = some b ∧ f a = .ok b := by
  induction l generalizing out i with
  | nil => simp at ha
  | cons x l ih =>
    rw [mapE] at h
    cases hfx : f x with
    | error e => rw [hfx] at h; simp at h
    | ok b =>
      rw [hfx] at h
      cases hml : mapE f l with
      | error e => rw [hml] at h; simp at h
      | ok bs =>
        rw [hml] at h
        injection h with h
        subst h
        cases i with
        | zero =>
          rw [List.getElem?_cons_zero] at ha
          injection ha with ha
          subst ha
          exact ⟨b, by simp, hfx⟩
        | succ i =>
          rw [List.getElem?_cons_succ] at ha
          obtain ⟨b2, hb2, hf2⟩ := ih hml ha
          exact ⟨b2, by simpa using hb2, hf2⟩

/-- Inversion of `mapE` building a keyed dictionary whose keys are the input
elements: for a duplicate-free input list, the lookup of an input element
succeeds and returns exactly what the element-level computation produced. -/
theorem mapE_entry_lookup {β : Type} {f : ℤ → Except PyErr (ℤ × β)}
    (hf : ∀ a e, f a = .ok e → e.1 = a) {l : List ℤ} {out : List (ℤ × β)}
    (h : mapE f l = .ok out) (hnd : l.Nodup) {c : ℤ} (hc : c ∈ l) :
    ∃ pay, f c = .ok (c, pay) ∧ out.lookup c = some pay := by
  induction l generalizing out with
  | nil => cases hc
  | cons a l ih =>
    rw [mapE] at h
    cases hfa : f a with
    | error e => rw [hfa] at h; simp at h
    | ok b =>
      rw [hfa] at h
      cases hml : mapE f l with
      | error e => rw [hml] at h; simp at h
      | ok bs =>
        rw [hml] at h
        injection h with h
        subst h
        obtain ⟨hal, hl⟩ := List.nodup_cons.mp hnd
        obtain ⟨b1, b2⟩ := b
        have hb1 : b1 = a := hf a (b1, b2) hfa
        subst hb1
        rcases List.mem_cons.mp hc with hca | hcl2
        · subst hca
          exact ⟨b2, hfa, by simp [List.lookup_cons]⟩
        · have hca : c ≠ b1 := fun hh => hal (hh ▸ hcl2)
          obtain ⟨pay, hfc, hlk⟩ := ih hml hl hcl2
          refine ⟨pay, hfc, ?_⟩
          have hbeq : (c == b1) = false := by simp [hca]
          simpa [List.lookup_cons, hbeq] using hlk

/-- Inversion of a successful `fit`: the asserts passed and each stored
attribute is determined. -/
theorem fitModel_ok {s : ℕ} {X : PyMatrix} {kinds : List Bool} {y : List ℤ}
    {m : FittedModel} (h : fitModel s X kinds y = .ok m) :
    X.ncols = kinds.length ∧ X.rows.length = y.length ∧
      m.smoothing = s ∧ m.x_categorical = kinds ∧ m.classes = pyDistinct y ∧
      m.priors = priorsOf y ∧ buildDists s X kinds y = .ok m.feature_dists := by
  unfold fitModel at h
  by_cases h1 : X.ncols = kinds.length
  · rw [if_pos h1] at h
    by_cases h2 : X.rows.length = y.length
    · rw [if_pos h2] at h
      cases hb : buildDists s X kinds y with
      | error e => rw [hb] at h; simp at h
      | ok dists =>
        rw [hb] at h
        injection h with h
        subst h
        exact ⟨h1, h2, rfl, rfl, rfl, rfl, rfl⟩
    · rw [if_neg h2] at h; simp at h
  · rw [if_neg h1] at h; simp at h

/-- Evaluation of the loop body of `fit` for a categorical feature. -/
theorem buildEntry_cat {s : ℕ} {X : PyMatrix} {kinds : List Bool}
    {y : List ℤ} {i : ℕ} (label : ℤ) (hk : kinds[i]? = some true) :
    buildEntry s X kinds y i label =
      .ok (label, .cat (catTable (colCells X.rows i)
        (classColumn X.rows y label i) s)) := by
  simp [buildEntry, npIndexNat, hk]

/-- The dictionary entry built by the loop body of `fit` is keyed by the
class label it was built for. -/
theorem buildEntry_ok_fst {s : ℕ} {X : PyMatrix} {kinds : List Bool}
    {y : List ℤ} {i : ℕ} {label : ℤ} {e : ℤ × FeatureDistEntry}
    (h : buildEntry s X kinds y i label = .ok e) : e.1 = label := by
  simp only [buildEntry] at h
  split at h
  · simp at h
  · split at h
    · injection h with h
      subst h
      rfl
    · split at h
      · simp at h
      · injection h with h
        subst h
        rfl

/-- Evaluation shape of the loop body of `fit` for a continuous feature. -/
theorem buildEntry_gauss {s : ℕ} {X : PyMatrix} {kinds : List Bool}
    {y : List ℤ} {i : ℕ} {label : ℤ} {e : ℤ × FeatureDistEntry}
    (hk : kinds[i]? = some false)
    (h : buildEntry s X kinds y i label = .ok e) :
    ∃ fl, mapE cellAstype (classColumn X.rows y label i) = .ok fl ∧
      e = (label, .gauss (npMean fl) (npVar1 fl)) := by
  simp only [buildEntry, npIndexNat, hk] at h
  split at h
  · simp_all
  · split at h
    · simp at h
    · injection h with h
      exact ⟨_, by assumption, h.symm⟩

/-- What a successful `fit` stores for feature `i` at a class `c` of the
Class Set: the per-feature dictionary exists, its keyed lookup at `c`
succeeds, and the payload is exactly what the loop body produced. -/
theorem fit_feature_entry {s : ℕ} {X : PyMatrix} {kinds : List Bool}
    {y : List ℤ} {m : FittedModel} (h : fitModel s X kinds y = .ok m)
    {i : ℕ} {b : Bool} (hk : kinds[i]? = some b) {c : ℤ}
    (hc : c ∈ m.classes) :
    ∃ di pay, m.feature_dists[i]? = some di ∧ di.lookup c = some pay ∧
      buildEntry s X kinds y i c = .ok (c, pay) := by
  obtain ⟨hcols, hrows, hsm, hxc, hcl, hpr, hbd⟩ := fitModel_ok h
  have hi : i < kinds.length := (List.getElem?_eq_some.mp hk).1
  have hi2 : i < X.ncols := by omega
  have hri : (List.range X.ncols)[i]? = some i := List.getElem?_range hi2
  simp only [buildDists] at hbd
  obtain ⟨di, hdi, hbf⟩ := mapE_ok_get hbd hri
  simp only [buildFeature] at hbf
  have hcy : c ∈ pyDistinct y := hcl ▸ hc
  have hnd : (pyDistinct y).Nodup := List.nodup_dedup y
  obtain ⟨pay, hbe, hlook⟩ := mapE_entry_lookup
    (fun a e he => buildEntry_ok_fst he) hbf hnd hcy
  exact ⟨di, pay, hdi, hlook, hbe⟩

/-- Lookup of an element that does not occur in the generating list of a
sparse table misses. -/
theorem lookup_filterMap_nf (g : Cell → ℚ) {l : List Cell} {v : Cell}
    (hv : v ∉ l) :
    (l.filterMap fun c => if g c ≠ 0 then some (c, g c) else none).lookup v
      = none := by
  induction l with
  | nil => rfl
  | cons a l ih =>
    have hva : v ≠ a := fun hh => hv (hh ▸ List.mem_cons_self a l)
    have hvl : v ∉ l := fun hh => hv (List.mem_cons_of_mem a hh)
    rw [List.filterMap_cons]
    by_cases hga : g a = 0
    · rw [if_neg (by simpa using hga)]
      exact ih hvl
    · rw [if_pos hga]
      have hbeq : (v == a) = false := by simp [hva]
      simpa [List.lookup_cons, hbeq] using ih hvl

/-- Lookup in a sparse table generated from a duplicate-free list: present
with its value exactly when the value is nonzero. -/
theorem lookup_filterMap_if (g : Cell → ℚ) {l : List Cell} (hnd : l.Nodup)
    {v : Cell} (hv : v ∈ l) :
    (l.filterMap fun c => if g c ≠ 0 then some (c, g c) else none).lookup v
      = if g v = 0 then none else some (g v) := by
  induction l with
  | nil => cases hv
  | cons a l ih =>
    obtain ⟨hal, hl⟩ := List.nodup_cons.mp hnd
    rw [List.filterMap_cons]
    rcases List.mem_cons.mp hv with hva | hvl
    · subst hva
      by_cases hgv : g v = 0
      · rw [if_neg (by simpa using hgv), if_pos hgv]
        exact lookup_filterMap_nf g hal
      · rw [if_pos hgv, if_neg hgv]
        simp [List.lookup_cons]
    · have hva : v ≠ a := fun hh => hal (hh ▸ hvl)
      by_cases hga : g a = 0
      · rw [if_neg (by simpa using hga)]
        exact ih hl hvl
      · rw [if_pos hga]
        have hbeq : (v == a) = false := by simp [hva]
        simpa [List.lookup_cons, hbeq] using ih hl hvl

/-- Lookup in a stored categorical table: for a category that occurs in the
column, the stored entry is the conditional-probability formula when that
value is nonzero, and absent when it is zero. -/
theorem catTable_lookup (col subset : List Cell) (s : ℕ) {v : Cell}
    (hv : v ∈ pyDistinct col) :
    (catTable col subset s).lookup v =
      (if ((subset.count v : ℚ) + (s : ℚ)) /
          ((subset.length : ℚ) + (s : ℚ) * ((pyDistinct col).length : ℚ)) = 0
       then none
       else some (((subset.count v : ℚ) + (s : ℚ)) /
          ((subset.length : ℚ) + (s : ℚ) * ((pyDistinct col).length : ℚ)))) := by
  have hnd : (pyDistinct col).Nodup := List.nodup_dedup col
  exact lookup_filterMap_if
    (fun c => ((subset.count c : ℚ) + (s : ℚ)) /
      ((subset.length : ℚ) + (s : ℚ) * ((pyDistinct col).length : ℚ)))
    hnd hv

/-- Keys of the priors dictionary are exactly the distinct labels. -/
theorem priorsOf_fst (y : List ℤ) :
    (priorsOf y).map Prod.fst = pyDistinct y := by
  simp only [priorsOf, List.map_map]
  have hcomp : (Prod.fst ∘ fun label : ℤ =>
      (label, ((List.count label y : ℚ)) / (y.length : ℚ))) = id := by
    funext label; rfl
  rw [hcomp, List.map_id]

/-- Values of the priors dictionary sum to 1 for a nonempty label vector. -/
theorem priorsOf_sum {y : List ℤ} (hy : y ≠ []) :
    ((priorsOf y).map Prod.snd).sum = 1 := by
  have hne : (y.length : ℚ) ≠ 0 := by
    have h0 : 0 < y.length := List.length_pos.mpr hy
    positivity
  have h1 : (y.dedup.map fun lab => ((y.count lab : ℚ))).sum = (y.length : ℚ) := by
    have h0 := List.sum_map_count_dedup_eq_length y
    calc (y.dedup.map fun lab => ((y.count lab : ℚ))).sum
        = (((y.dedup.map fun lab => y.count lab).sum : ℕ) : ℚ) := by
          rw [Nat.cast_list_sum, List.map_map]; rfl
      _ = (y.length : ℚ) := by rw [h0]
  have h2 : ((priorsOf y).map Prod.snd).sum
      = (y.dedup.map fun lab => ((y.count lab : ℚ) / (y.length : ℚ))).sum := by
    simp [priorsOf, pyDistinct, List.map_map]
    rfl
  rw [h2]
  simp only [div_eq_mul_inv]
  rw [List.sum_map_mul_right y.dedup (fun lab => ((y.count lab : ℚ)))
    (y.length : ℚ)⁻¹, h1, mul_inv_cancel₀ hne]

/-- Python indexing with a nonnegative index is plain list indexing. -/
theorem pyIndex_natCast {α : Type} (l : List α) (i : ℕ) :
    pyIndex l (i : ℤ) = npIndexNat l i := by
  simp only [pyIndex, npIndexNat]
  have hj : (if ((i : ℤ)) < 0 then (i : ℤ) + l.length else (i : ℤ)) = (i : ℤ) :=
    if_neg (by omega)
  rw [hj, if_pos (by omega)]
  simp

/-- Python indexing with a negative index `-k`, `1 ≤ k ≤ len`, is indexing
at position `len - k` from the front. -/
theorem pyIndex_neg {α : Type} (l : List α) (k : ℕ) (h1 : 1 ≤ k)
    (h2 : k ≤ l.length) :
    pyIndex l (-(k : ℤ)) = pyIndex l ((l.length - k : ℕ) : ℤ) := by
  rw [pyIndex_natCast]
  simp only [pyIndex, npIndexNat]
  have hj : (if (-(k : ℤ)) < 0 then (-(k : ℤ)) + l.length else (-(k : ℤ)))
      = (-(k : ℤ)) + l.length := if_pos (by omega)
  rw [hj, if_pos (by omega)]
  have ht : ((-(k : ℤ)) + l.length).toNat = l.length - k := by omega
  rw [ht]

/-- Evaluation of `fit` on the `X2` fixture. -/
theorem fit_X2 : fitModel 0 X2 [true] [0] = .ok m2 := rfl

/-- Evaluation of `fit` on the `X3` fixture. -/
theorem fit_X3 : fitModel 0 X3 [false] [0, 0] = .ok m3 := rfl

/-- C1: the claim states that `predict`, for every fitted model and every
test matrix with matching column count, computes per-class log-scores (log
prior plus the feature log-probabilities of every feature) and returns the
first maximal class per row.  The code instead raises `AttributeError` on
every test matrix with at least one row: the first loop iteration evaluates
`np.zeros(self.classes.shape[0])` (line 174) and `self.classes` is a plain
Python list without a `shape` attribute, so no prediction is ever
produced. -/
theorem predict_raises_attribute_error (m : FittedModel) (X : PyMatrix)
    (hcols : X.ncols = m.x_categorical.length) (hrows : X.rows ≠ []) :
    m.predict X = .error .attributeError := by
  unfold FittedModel.predict
  rw [if_pos hcols]
  cases hr : X.rows with
  | nil => exact absurd hr hrows
  | cons a l => rfl

/-- C1 witness: the theorem instantiated at the `mA` model and the matching
1-row test matrix `XA`. -/
theorem predict_raises_attribute_error_witness :
    XA.ncols = mA.x_categorical.length ∧ XA.rows ≠ [] ∧
      mA.predict XA = .error .attributeError :=
  ⟨rfl, by decide, predict_raises_attribute_error mA XA rfl (by decide)⟩

/-- C2: the claim states that fitting the 10-row loan-default table without
smoothing and predicting `['No', 'Married', 120]` returns the class label 0.
The code's `nb_demo` instead crashes inside `predict` with `AttributeError`
(line 174, `self.classes.shape`), producing no label at all. -/
theorem nb_demo_raises : nbDemo = .error .attributeError := rfl

/-- C3: the claim states that `feature_class_prob` on an in-range continuous
feature, a valid class label, and a numeric value returns the Gaussian
density `1/(std·sqrt(2π)) · exp(−(v−mean)²/(2·std²))` for the stored
parameters.  The code instead raises `TypeError` on every such call: line
151 calls `np.power(st_dev ** 2)` with a single argument, so the density
expression never produces a value.  Stated for every fitted model, every
continuous feature index, and every class label that is in the Class Set
and passes the `class_label < len(self.classes)` assert. -/
theorem continuous_prob_raises_typeerror {s : ℕ} {X : PyMatrix}
    {kinds : List Bool} {y : List ℤ} {m : FittedModel} {i : ℕ} {c : ℤ}
    (q : ℚ) (hfit : fitModel s X kinds y = .ok m)
    (hk : kinds[i]? = some false) (hc : c ∈ m.classes)
    (hcl : c < (m.classes.length : ℤ)) :
    m.feature_class_prob (i : ℤ) c (.num q) = .error .typeError := by
  obtain ⟨di, pay, hdi, hlook, hbe⟩ := fit_feature_entry hfit hk hc
  obtain ⟨fl, hfl, hpair⟩ := buildEntry_gauss hk hbe
  have hpay : pay = .gauss (npMean fl) (npVar1 fl) := congrArg Prod.snd hpair
  obtain ⟨hcols, hrows, hsm, hxc, hcls, hpr, hbd⟩ := fitModel_ok hfit
  have hi : i < kinds.length := (List.getElem?_eq_some.mp hk).1
  unfold FittedModel.feature_class_prob
  rw [if_pos (by rw [hxc]; exact_mod_cast hi), if_pos hcl]
  rw [pyIndex_natCast, pyIndex_natCast]
  simp only [npIndexNat, hdi, hxc, hk, dictGet, hlook, hpay]
  rfl

/-- C3 witness: the theorem instantiated at the fitted `X3` fixture,
feature 0, class 0, value 120. -/
theorem continuous_prob_raises_typeerror_witness :
    m3.feature_class_prob 0 0 (.num 120) = .error .typeError :=
  continuous_prob_raises_typeerror 120 fit_X3 rfl (by decide) (by decide)

/-- C4: the claim states that `feature_class_prob` on a continuous feature
never returns a negative value and never exactly 0, substituting the floor
1e-9 when the density underflows.  The code never returns any value on a
continuous feature: for every numeric argument it raises `TypeError` at
`np.power(st_dev ** 2)` (line 151), before the zero test of line 152 and
the floor substitution of line 153 are reached — shown here on the fitted
`X3` fixture for every rational value. -/
theorem density_floor_never_returned : ∀ q : ℚ,
    (fitModel 0 X3 [false] [0, 0]).bind
      (fun m => m.feature_class_prob 0 0 (.num q)) = .error .typeError :=
  fun _ => rfl

/-- C5: for every fitted model, every in-range categorical feature index,
and every class label that is in the Class Set and passes the
`class_label < len(self.classes)` assert, `feature_class_prob` applied to a
value with no stored entry in that feature's per-class table returns 0
rather than failing (`dict.get` with default 0, line 146). -/
theorem unseen_category_returns_zero {s : ℕ} {X : PyMatrix}
    {kinds : List Bool} {y : List ℤ} {m : FittedModel} {i : ℕ} {c : ℤ}
    (x : Cell) (hfit : fitModel s X kinds y = .ok m)
    (hk : kinds[i]? = some true) (hc : c ∈ m.classes)
    (hcl : c < (m.classes.length : ℤ))
    (hmiss : storedCatProb m i c x = none) :
    m.feature_class_prob (i : ℤ) c x = .ok 0 := by
  obtain ⟨di, pay, hdi, hlook, hbe⟩ := fit_feature_entry hfit hk hc
  rw [buildEntry_cat c hk] at hbe
  injection hbe with hbe
  have hpay : FeatureDistEntry.cat (catTable (colCells X.rows i)
      (classColumn X.rows y c i) s) = pay := congrArg Prod.snd hbe
  rw [← hpay] at hlook
  simp only [storedCatProb, hdi, hlook, Option.bind] at hmiss
  obtain ⟨hcols, hrows, hsm, hxc, hcls, hpr, hbd⟩ := fitModel_ok hfit
  have hi : i < kinds.length := (List.getElem?_eq_some.mp hk).1
  unfold FittedModel.feature_class_prob
  rw [if_pos (by rw [hxc]; exact_mod_cast hi), if_pos hcl]
  rw [pyIndex_natCast, pyIndex_natCast]
  simp only [npIndexNat, hdi, hxc, hk, dictGet, hlook]
  simp [dictGetDefault, hmiss]

/-- C5 witness: on the fitted `X2` fixture (categories of the column:
only "a"), the value "b" has no stored entry for class 0 and the call
returns 0. -/
theorem unseen_category_returns_zero_witness :
    storedCatProb m2 0 0 (Cell.str "b") = none ∧
      m2.feature_class_prob 0 0 (Cell.str "b") = .ok 0 := by
  have hmiss : storedCatProb m2 0 0 (Cell.str "b") = none := by
    simp [storedCatProb, m2, catTable, colCells, classColumn, X2, pyDistinct]
  exact ⟨hmiss, unseen_category_returns_zero (Cell.str "b") fit_X2 rfl
    (by decide) (by decide) hmiss⟩

/-- C6: after `fit`, for every categorical feature, every class of the
Class Set, and every distinct category value observed anywhere in the
feature's full column, the stored conditional probability equals
`(count of the category within the class subset + smoothing) /
 (class subset size + smoothing × number of distinct categories in the
column)`, and an entry whose probability is exactly 0 is absent from the
stored mapping. -/
theorem fit_stores_cat_formula {s : ℕ} {X : PyMatrix} {kinds : List Bool}
    {y : List ℤ} {m : FittedModel} {i : ℕ} {c : ℤ} {v : Cell}
    (hfit : fitModel s X kinds y = .ok m)
    (hk : kinds[i]? = some true) (hc : c ∈ m.classes)
    (hv : v ∈ pyDistinct (colCells X.rows i)) :
    storedCatProb m i c v =
      (if (((classColumn X.rows y c i).count v : ℚ) + (s : ℚ)) /
          (((classColumn X.rows y c i).length : ℚ) +
            (s : ℚ) * ((pyDistinct (colCells X.rows i)).length : ℚ)) = 0
       then none
       else some ((((classColumn X.rows y c i).count v : ℚ) + (s : ℚ)) /
          (((classColumn X.rows y c i).length : ℚ) +
            (s : ℚ) * ((pyDistinct (colCells X.rows i)).length : ℚ)))) := by
  obtain ⟨di, pay, hdi, hlook, hbe⟩ := fit_feature_entry hfit hk hc
  rw [buildEntry_cat c hk] at hbe
  injection hbe with hbe
  have hpay : FeatureDistEntry.cat (catTable (colCells X.rows i)
      (classColumn X.rows y c i) s) = pay := congrArg Prod.snd hbe
  rw [← hpay] at hlook
  simp only [storedCatProb, hdi, hlook, Option.bind]
  exact catTable_lookup (colCells X.rows i) (classColumn X.rows y c i) s hv

/-- C6 witness: the theorem instantiated at the fitted `X2` fixture,
feature 0, class 0, category "a". -/
theorem fit_stores_cat_formula_witness :
    (Cell.str "a") ∈ pyDistinct (colCells X2.rows 0) ∧
      storedCatProb m2 0 0 (Cell.str "a") =
      (if (((classColumn X2.rows [0] 0 0).count (Cell.str "a") : ℚ)
            + ((0 : ℕ) : ℚ)) /
          (((classColumn X2.rows [0] 0 0).length : ℚ) +
            ((0 : ℕ) : ℚ) * ((pyDistinct (colCells X2.rows 0)).length : ℚ)) = 0
       then none
       else some ((((classColumn X2.rows [0] 0 0).count (Cell.str "a") : ℚ)
            + ((0 : ℕ) : ℚ)) /
          (((classColumn X2.rows [0] 0 0).length : ℚ) +
            ((0 : ℕ) : ℚ) * ((pyDistinct (colCells X2.rows 0)).length : ℚ)))) :=
  ⟨by decide, fit_stores_cat_formula fit_X2 rfl (by decide) (by decide)⟩

/-- C7 (amended): for every model fitted on at least one training row, the
priors mapping has exactly one entry for each class of the Class Set and no
others (duplicate-free keys ranging over exactly the Class Set), and the
prior values sum to 1. -/
theorem priors_complete_and_sum_one {s : ℕ} {X : PyMatrix}
    {kinds : List Bool} {y : List ℤ} {m : FittedModel}
    (hfit : fitModel s X kinds y = .ok m) (hy : y ≠ []) :
    (m.priors.map Prod.fst).Nodup ∧
      (∀ c : ℤ, c ∈ m.priors.map Prod.fst ↔ c ∈ m.classes) ∧
      (m.priors.map Prod.snd).sum = 1 := by
  obtain ⟨hcols, hrows, hsm, hxc, hcls, hpr, hbd⟩ := fitModel_ok hfit
  refine ⟨?_, ?_, ?_⟩
  · rw [hpr, priorsOf_fst]
    exact List.nodup_dedup y
  · intro c
    rw [hpr, priorsOf_fst, hcls]
  · rw [hpr]
    exact priorsOf_sum hy

/-- C7 witness (for the amended statement): the theorem instantiated at the
fitted `X2` fixture. -/
theorem priors_complete_and_sum_one_witness :
    (m2.priors.map Prod.fst).Nodup ∧
      (∀ c : ℤ, c ∈ m2.priors.map Prod.fst ↔ c ∈ m2.classes) ∧
      (m2.priors.map Prod.snd).sum = 1 :=
  priors_complete_and_sum_one fit_X2 (by decide)

/-- C7 counterexample: the claim as stated quantifies over every fitted
model, but fitting on a zero-row training matrix succeeds (both shape
asserts compare 0 with 0 and the per-class loops run over an empty Class
Set) and stores an empty priors mapping, whose values sum to 0, not 1. -/
theorem priors_sum_fails_on_empty_fit :
    fitModel 0 X0 [true] [] = .ok m0 ∧
      ¬ ((m0.priors.map Prod.snd).sum = 1) := by
  refine ⟨rfl, ?_⟩
  simp [m0, priorsOf, pyDistinct]

/-- C8: `fit` fails with the `ShapeMismatch` error (the `AssertionError` of
the shape asserts on lines 81 and 84, raised before any attribute is
assigned, so no model state derived from the mismatched input is stored and
nothing is silently truncated) whenever the feature-kind vector's length
differs from the training matrix's column count or the label vector's
length differs from its row count. -/
theorem fit_shape_mismatch (c : NBClassifier) (X : PyMatrix)
    (kinds : List Bool) (y : List ℤ)
    (h : kinds.length ≠ X.ncols ∨ y.length ≠ X.rows.length) :
    c.fit X kinds y = .error (.assertionError "") := by
  unfold NBClassifier.fit fitModel
  by_cases h1 : X.ncols = kinds.length
  · rw [if_pos h1]
    have h2 : ¬ (X.rows.length = y.length) := by
      rcases h with h | h
      · exact absurd h1.symm h
      · exact fun hh => h hh.symm
    rw [if_neg h2]
  · rw [if_neg h1]

/-- C8 witness: an empty feature-kind vector against a 1-column matrix. -/
theorem fit_shape_mismatch_witness :
    ([] : List Bool).length ≠ X2.ncols ∧
      (NBClassifier.new false).fit X2 [] [0] = .error (.assertionError "") :=
  ⟨by decide, fit_shape_mismatch (NBClassifier.new false) X2 [] [0]
    (Or.inl (by decide))⟩

/-- C9: for every engine in the Unfit state (constructed with either
smoothing flag and never fitted), calling `predict` or `feature_class_prob`
fails with the `ModelNotFit` error (the `AttributeError` of reading the
unset `self.X_categorical`), for every argument. -/
theorem unfit_calls_raise (flag : Bool) (X : PyMatrix) (i c : ℤ) (x : Cell) :
    (NBClassifier.new flag).predict X = .error .attributeError ∧
      (NBClassifier.new flag).feature_class_prob i c x
        = .error .attributeError :=
  ⟨rfl, rfl⟩

/-- C10: for every fitted model with `f` features, a negative
`feature_index` passes the index-validation assert (only the upper bound
`feature_index < f` is checked, and a negative integer is always below
`f`), and for `feature_index = -k` with `1 ≤ k ≤ f` the call evaluates the
distribution of feature `f - k`, Python indexing from the end, instead of
failing with `InvalidIndex`. -/
theorem negative_feature_index_wraps (m : FittedModel) (k : ℕ) (c : ℤ)
    (x : Cell) (hlen : m.feature_dists.length = m.x_categorical.length)
    (h1 : 1 ≤ k) (h2 : k ≤ m.x_categorical.length) :
    (-(k : ℤ) < (m.x_categorical.length : ℤ)) ∧
      m.feature_class_prob (-(k : ℤ)) c x
        = m.feature_class_prob ((m.x_categorical.length - k : ℕ) : ℤ) c x := by
  refine ⟨by omega, ?_⟩
  have hk2 : k ≤ m.feature_dists.length := by omega
  unfold FittedModel.feature_class_prob
  have g1 : (-(k : ℤ)) < (m.x_categorical.length : ℤ) := by omega
  have g2 : ((m.x_categorical.length - k : ℕ) : ℤ)
      < (m.x_categorical.length : ℤ) := by omega
  rw [if_pos g1, if_pos g2, pyIndex_neg m.feature_dists k h1 hk2,
    pyIndex_neg m.x_categorical k h1 h2, hlen]

/-- C10 witness: the theorem instantiated at the `mA` model with `k = 1`. -/
theorem negative_feature_index_wraps_witness :
    mA.feature_dists.length = mA.x_categorical.length ∧
      1 ≤ mA.x_categorical.length ∧
      ((-(1 : ℤ) < (mA.x_categorical.length : ℤ)) ∧
        mA.feature_class_prob (-(1 : ℤ)) 0 (Cell.str "a")
          = mA.feature_class_prob ((mA.x_categorical.length - 1 : ℕ) : ℤ) 0
              (Cell.str "a")) :=
  ⟨rfl, by decide,
    negative_feature_index_wraps mA 1 0 (Cell.str "a") rfl (le_refl 1)
      (by decide)⟩
